import Mathlib

/-!
Shallow embedding of the iofd repository (Go): a generic file-descriptor
wrapper plus specialized Linux handles (eventfd, timerfd, signalfd, pidfd,
memfd).

The kernel is external to the package: every syscall site takes the kernel
reply (return value and errno, plus any kernel-side state change) as an
explicit oracle argument.  Each operation returns, alongside its Go result,
a `sys` flag recording whether the kernel primitive was actually invoked,
so that the no-syscall short-circuits of the code are visible in the model.

The descriptor slot of `FD` (an int32 mutated only by `Close`) is modelled
as an `Int` threaded explicitly through the operations that can observe or
mutate it.
-/

namespace Iofd

/-! ## Errno constants (Linux) and the error translator (src/fd.go) -/

def EPERM : Nat := 1
def EINTR : Nat := 4
def EBADF : Nat := 9
def EAGAIN : Nat := 11
def ENOMEM : Nat := 12
def EACCES : Nat := 13
def EINVAL : Nat := 22

/-- Semantic error taxonomy: the named errors of the package
(ErrClosed, ErrInvalidParam, ErrInterrupted, ErrNoMemory, ErrPermission),
iox.ErrWouldBlock, and a raw errno returned verbatim by the default branch
of errFromErrno. -/
inductive Err where
  | wouldBlock : Err
  | closed : Err
  | invalidParam : Err
  | interrupted : Err
  | noMemory : Err
  | permission : Err
  | unmapped (code : Nat) : Err
deriving DecidableEq, Repr

/-- errFromErrno (src/fd.go): converts a raw errno to a semantic error;
0 means success (no error object). -/
def errFromErrno (errno : Nat) : Option Err :=
  if errno = 0 then none
  else if errno = EAGAIN then some .wouldBlock
  else if errno = EBADF then some .closed
  else if errno = EINVAL then some .invalidParam
  else if errno = EINTR then some .interrupted
  else if errno = ENOMEM then some .noMemory
  else if errno = EACCES ∨ errno = EPERM then some .permission
  else some (.unmapped errno)

/-- Result of one operation: the returned value, the returned error, and
whether a kernel primitive was invoked on the way. -/
structure OpResult (α : Type) where
  val : α
  err : Option Err
  sys : Bool
deriving DecidableEq, Repr

/-! ## FD: the atomic descriptor wrapper (src/fd.go) -/

/-- FD.Raw: atomic load of the slot. -/
def fdRaw (fd : Int) : Int := fd

/-- FD.Valid: the slot is non-negative. -/
def fdValid (fd : Int) : Bool := decide (0 ≤ fdRaw fd)

/-- FD.Close: atomically swap the slot to -1; if the prior value was
negative, return nil without calling the kernel; otherwise release the
captured prior value and translate the errno.  `kclose` is the kernel
close oracle (errno as a function of the released raw value). -/
def fdClose (fd : Int) (kclose : Int → Nat) : Int × OpResult Unit :=
  let old := fd
  if old < 0 then (-1, ⟨(), none, false⟩)
  else
    let errno := kclose old
    if errno ≠ 0 then (-1, ⟨(), errFromErrno errno, true⟩)
    else (-1, ⟨(), none, true⟩)

/-- FD.Read: zero-length buffers are a no-op success; a closed slot fails
with ErrClosed; otherwise the kernel read reply (n, errno) is returned
translated.  `plen` is len(p). -/
def fdRead (fd : Int) (plen : Nat) (kread : Nat × Nat) : Int × OpResult Nat :=
  if plen = 0 then (fd, ⟨0, none, false⟩)
  else if fd < 0 then (fd, ⟨0, some .closed, false⟩)
  else
    let n := kread.1
    let errno := kread.2
    if errno ≠ 0 then (fd, ⟨n, errFromErrno errno, true⟩)
    else (fd, ⟨n, none, true⟩)

/-- FD.Write: same shape as FD.Read. -/
def fdWrite (fd : Int) (plen : Nat) (kwrite : Nat × Nat) : Int × OpResult Nat :=
  if plen = 0 then (fd, ⟨0, none, false⟩)
  else if fd < 0 then (fd, ⟨0, some .closed, false⟩)
  else
    let n := kwrite.1
    let errno := kwrite.2
    if errno ≠ 0 then (fd, ⟨n, errFromErrno errno, true⟩)
    else (fd, ⟨n, none, true⟩)

def O_NONBLOCK : Nat := 0x800
def FD_CLOEXEC : Nat := 1

/-- All-ones 64-bit word, for the Go AND-NOT operator on flag words. -/
def UINT64MAX : Nat := 2 ^ 64 - 1

/-- Go `x &^ y` on a 64-bit word. -/
def andNot (x y : Nat) : Nat := x &&& (UINT64MAX ^^^ y)

/-- FD.SetNonblock: fcntl F_GETFL, modify O_NONBLOCK, fcntl F_SETFL.
`kget` is the (flags, errno) reply of the first fcntl, `kset` maps the
written flags to the (value, errno) reply of the second. -/
def fdSetNonblock (fd : Int) (nonblock : Bool)
    (kget : Nat × Nat) (kset : Nat → Nat × Nat) : Int × OpResult Unit :=
  if fd < 0 then (fd, ⟨(), some .closed, false⟩)
  else
    let flags := kget.1
    let e1 := kget.2
    if e1 ≠ 0 then (fd, ⟨(), errFromErrno e1, true⟩)
    else
      let flags2 := if nonblock then flags ||| O_NONBLOCK else andNot flags O_NONBLOCK
      let e2 := (kset flags2).2
      if e2 ≠ 0 then (fd, ⟨(), errFromErrno e2, true⟩)
      else (fd, ⟨(), none, true⟩)

/-- FD.SetCloexec: fcntl F_GETFD, modify FD_CLOEXEC, fcntl F_SETFD. -/
def fdSetCloexec (fd : Int) (cloexec : Bool)
    (kget : Nat × Nat) (kset : Nat → Nat × Nat) : Int × OpResult Unit :=
  if fd < 0 then (fd, ⟨(), some .closed, false⟩)
  else
    let flags := kget.1
    let e1 := kget.2
    if e1 ≠ 0 then (fd, ⟨(), errFromErrno e1, true⟩)
    else
      let flags2 := if cloexec then flags ||| FD_CLOEXEC else andNot flags FD_CLOEXEC
      let e2 := (kset flags2).2
      if e2 ≠ 0 then (fd, ⟨(), errFromErrno e2, true⟩)
      else (fd, ⟨(), none, true⟩)

/-- FD.Dup: fcntl F_DUPFD_CLOEXEC; returns the new descriptor number or
InvalidFD (-1) on failure. -/
def fdDup (fd : Int) (kdup : Nat × Nat) : Int × OpResult Int :=
  if fd < 0 then (fd, ⟨-1, some .closed, false⟩)
  else
    let newfd := kdup.1
    let errno := kdup.2
    if errno ≠ 0 then (fd, ⟨-1, errFromErrno errno, true⟩)
    else (fd, ⟨(newfd : Int), none, true⟩)

/-- The operations of FD that touch the slot, each carrying its kernel
oracle, for reasoning about arbitrary operation sequences. -/
inductive FDOp where
  | close (kclose : Int → Nat) : FDOp
  | read (plen : Nat) (kread : Nat × Nat) : FDOp
  | write (plen : Nat) (kwrite : Nat × Nat) : FDOp
  | setNonblock (b : Bool) (kget : Nat × Nat) (kset : Nat → Nat × Nat) : FDOp
  | setCloexec (b : Bool) (kget : Nat × Nat) (kset : Nat → Nat × Nat) : FDOp
  | dup (kdup : Nat × Nat) : FDOp

/-- The slot value after one FD operation (only Close stores to the slot;
the other operations merely load it). -/
def fdStep (fd : Int) : FDOp → Int
  | .close k => (fdClose fd k).1
  | .read plen k => (fdRead fd plen k).1
  | .write plen k => (fdWrite fd plen k).1
  | .setNonblock b kg ks => (fdSetNonblock fd b kg ks).1
  | .setCloexec b kg ks => (fdSetCloexec fd b kg ks).1
  | .dup k => (fdDup fd k).1

/-- The slot value after a sequence of FD operations. -/
def fdRun (fd : Int) (ops : List FDOp) : Int := ops.foldl fdStep fd

/-! ## EventFD (src/unnamed/part_000): Linux eventfd -/

/-- Little-endian encoding of a 64-bit counter value into 8 bytes
(binary.NativeEndian.PutUint64 on amd64). -/
def le64enc (v : Nat) : List Nat :=
  (List.range 8).map (fun i => v / 256 ^ i % 256)

/-- Little-endian decoding of the first 8 bytes
(binary.NativeEndian.Uint64 on amd64). -/
def le64 (bs : List Nat) : Nat :=
  (bs.take 8).foldr (fun b acc => b + 256 * acc) 0

/-- EventFD.Signal: a zero delta returns nil at once; a closed slot fails
with ErrClosed; otherwise the 8-byte encoded delta is written to the
kernel.  `kwrite` is the kernel write oracle: from the kernel counter and
the written bytes it yields (n, errno, new kernel counter); `ctr` threads
the kernel-side counter so that its preservation is observable. -/
def evSignal (fd : Int) (ctr : Nat) (val : Nat)
    (kwrite : Nat → List Nat → Nat × Nat × Nat) : (Int × Nat) × OpResult Unit :=
  if val = 0 then ((fd, ctr), ⟨(), none, false⟩)
  else if fd < 0 then ((fd, ctr), ⟨(), some .closed, false⟩)
  else
    let r := kwrite ctr (le64enc val)
    let n := r.1
    let errno := r.2.1
    let ctr2 := r.2.2
    if errno ≠ 0 then
      if errno = EAGAIN then ((fd, ctr2), ⟨(), some .wouldBlock, true⟩)
      else ((fd, ctr2), ⟨(), errFromErrno errno, true⟩)
    else if n ≠ 8 then ((fd, ctr2), ⟨(), some .invalidParam, true⟩)
    else ((fd, ctr2), ⟨(), none, true⟩)

/-- EventFD.Wait: reads the 8-byte counter record; EAGAIN becomes
WouldBlock, a short transfer becomes ErrInvalidParam, otherwise the
decoded counter value is returned.  `kread` is (n, errno, bytes). -/
def evWait (fd : Int) (kread : Nat × Nat × List Nat) : OpResult Nat :=
  if fd < 0 then ⟨0, some .closed, false⟩
  else
    let n := kread.1
    let errno := kread.2.1
    let buf := kread.2.2
    if errno ≠ 0 then
      if errno = EAGAIN then ⟨0, some .wouldBlock, true⟩
      else ⟨0, errFromErrno errno, true⟩
    else if n ≠ 8 then ⟨0, some .invalidParam, true⟩
    else ⟨le64 buf, none, true⟩

/-- EventFD.Read: the buffer-sized variant; a buffer shorter than 8 bytes
is rejected with ErrInvalidParam before anything else. -/
def evRead (fd : Int) (plen : Nat) (kread : Nat × Nat) : OpResult Nat :=
  if plen < 8 then ⟨0, some .invalidParam, false⟩
  else if fd < 0 then ⟨0, some .closed, false⟩
  else
    let n := kread.1
    let errno := kread.2
    if errno ≠ 0 then ⟨n, errFromErrno errno, true⟩
    else ⟨n, none, true⟩

/-- EventFD.Write: the buffer-sized variant; same undersized-buffer
rejection as EventFD.Read. -/
def evWrite (fd : Int) (plen : Nat) (kwrite : Nat × Nat) : OpResult Nat :=
  if plen < 8 then ⟨0, some .invalidParam, false⟩
  else if fd < 0 then ⟨0, some .closed, false⟩
  else
    let n := kwrite.1
    let errno := kwrite.2
    if errno ≠ 0 then ⟨n, errFromErrno errno, true⟩
    else ⟨n, none, true⟩

/-! ## TimerFD (src/unnamed/part_000): Linux timerfd -/

/-- struct timespec: (seconds, nanoseconds), both signed 64-bit. -/
structure Timespec where
  sec : Int
  nsec : Int
deriving DecidableEq, Repr

/-- struct itimerspec: interval first, then value. -/
structure Itimerspec where
  interval : Timespec
  value : Timespec
deriving DecidableEq, Repr

def TFD_TIMER_ABSTIME : Nat := 1

/-- One timerfd_settime invocation as performed by the code: the flags
word and the itimerspec passed to the kernel. -/
structure SettimeCall where
  flags : Nat
  spec : Itimerspec
deriving DecidableEq, Repr

/-- TimerFD.Arm: relative arming; builds the itimerspec from the
nanosecond arguments with truncated 64-bit division and calls
timerfd_settime with flags 0.  The second component records the call
actually issued to the kernel (none when the slot is closed).  `kset`
is the kernel errno oracle. -/
def timerArm (fd : Int) (initial interval : Int)
    (kset : Itimerspec → Nat) : OpResult Unit × Option SettimeCall :=
  if fd < 0 then (⟨(), some .closed, false⟩, none)
  else
    let newValue : Itimerspec :=
      ⟨⟨interval.tdiv 1000000000, interval.tmod 1000000000⟩,
       ⟨initial.tdiv 1000000000, initial.tmod 1000000000⟩⟩
    let errno := kset newValue
    if errno ≠ 0 then (⟨(), errFromErrno errno, true⟩, some ⟨0, newValue⟩)
    else (⟨(), none, true⟩, some ⟨0, newValue⟩)

/-- TimerFD.ArmAt: absolute arming; same itimerspec construction but the
settime call carries TFD_TIMER_ABSTIME. -/
def timerArmAt (fd : Int) (deadline interval : Int)
    (kset : Itimerspec → Nat) : OpResult Unit × Option SettimeCall :=
  if fd < 0 then (⟨(), some .closed, false⟩, none)
  else
    let newValue : Itimerspec :=
      ⟨⟨interval.tdiv 1000000000, interval.tmod 1000000000⟩,
       ⟨deadline.tdiv 1000000000, deadline.tmod 1000000000⟩⟩
    let errno := kset newValue
    if errno ≠ 0 then (⟨(), errFromErrno errno, true⟩, some ⟨TFD_TIMER_ABSTIME, newValue⟩)
    else (⟨(), none, true⟩, some ⟨TFD_TIMER_ABSTIME, newValue⟩)

/-- TimerFD.Disarm: the source is literally `return t.Arm(0, 0)`. -/
def timerDisarm (fd : Int) (kset : Itimerspec → Nat) : OpResult Unit × Option SettimeCall :=
  timerArm fd 0 0 kset

/-- TimerFD.Read: reads the 8-byte expiration-count record; EAGAIN becomes
WouldBlock, a short transfer becomes ErrInvalidParam. -/
def timerRead (fd : Int) (kread : Nat × Nat × List Nat) : OpResult Nat :=
  if fd < 0 then ⟨0, some .closed, false⟩
  else
    let n := kread.1
    let errno := kread.2.1
    let buf := kread.2.2
    if errno ≠ 0 then
      if errno = EAGAIN then ⟨0, some .wouldBlock, true⟩
      else ⟨0, errFromErrno errno, true⟩
    else if n ≠ 8 then ⟨0, some .invalidParam, true⟩
    else ⟨le64 buf, none, true⟩

/-- TimerFD.ReadInto: a buffer shorter than 8 bytes is rejected with
ErrInvalidParam before anything else. -/
def timerReadInto (fd : Int) (plen : Nat) (kread : Nat × Nat) : OpResult Nat :=
  if plen < 8 then ⟨0, some .invalidParam, false⟩
  else if fd < 0 then ⟨0, some .closed, false⟩
  else
    let n := kread.1
    let errno := kread.2
    if errno ≠ 0 then ⟨n, errFromErrno errno, true⟩
    else ⟨n, none, true⟩

/-! ## SignalFD and SigSet (src/unnamed/part_001) -/

/-- SigSet.Add: signal numbers outside [1,64] are ignored; otherwise the
bit sig-1 is set. -/
def sigsetAdd (s : Nat) (sig : Int) : Nat :=
  if sig < 1 ∨ sig > 64 then s
  else s ||| (1 <<< (sig - 1).toNat)

/-- SigSet.Del: signal numbers outside [1,64] are ignored; otherwise the
bit sig-1 is cleared (Go AND-NOT). -/
def sigsetDel (s : Nat) (sig : Int) : Nat :=
  if sig < 1 ∨ sig > 64 then s
  else andNot s (1 <<< (sig - 1).toNat)

/-- SigSet.Has: false outside [1,64]; otherwise tests the bit sig-1. -/
def sigsetHas (s : Nat) (sig : Int) : Bool :=
  if sig < 1 ∨ sig > 64 then false
  else decide (s &&& (1 <<< (sig - 1).toNat) ≠ 0)

/-- Size of struct signalfd_siginfo in bytes. -/
def signalInfoSize : Nat := 128

/-- SignalFD state: the descriptor slot and the locally cached mask. -/
structure SignalFDState where
  fd : Int
  mask : Nat
deriving DecidableEq, Repr

/-- SignalFD.Read: reads one 128-byte signal record; EAGAIN becomes
WouldBlock, a short transfer becomes ErrInvalidParam, otherwise the
record bytes stand in for the decoded SignalInfo. -/
def sfdRead (fd : Int) (kread : Nat × Nat × List Nat) : OpResult (Option (List Nat)) :=
  if fd < 0 then ⟨none, some .closed, false⟩
  else
    let n := kread.1
    let errno := kread.2.1
    let buf := kread.2.2
    if errno ≠ 0 then
      if errno = EAGAIN then ⟨none, some .wouldBlock, true⟩
      else ⟨none, errFromErrno errno, true⟩
    else if n ≠ signalInfoSize then ⟨none, some .invalidParam, true⟩
    else ⟨some buf, none, true⟩

/-- SignalFD.ReadInto: a buffer shorter than 128 bytes is rejected with
ErrInvalidParam before anything else. -/
def sfdReadInto (fd : Int) (plen : Nat) (kread : Nat × Nat) : OpResult Nat :=
  if plen < signalInfoSize then ⟨0, some .invalidParam, false⟩
  else if fd < 0 then ⟨0, some .closed, false⟩
  else
    let n := kread.1
    let errno := kread.2
    if errno ≠ 0 then ⟨n, errFromErrno errno, true⟩
    else ⟨n, none, true⟩

/-- SignalFD.SetMask: closed slot fails with ErrClosed; on kernel failure
the cached mask is untouched; only after a successful signalfd4 call is
the cache overwritten with the new mask.  `ke` is the kernel errno. -/
def sfdSetMask (s : SignalFDState) (mask : Nat) (ke : Nat) : SignalFDState × OpResult Unit :=
  if s.fd < 0 then (s, ⟨(), some .closed, false⟩)
  else if ke ≠ 0 then (s, ⟨(), errFromErrno ke, true⟩)
  else ({ s with mask := mask }, ⟨(), none, true⟩)

/-- SignalFD.Mask: returns the cached mask. -/
def sfdMask (s : SignalFDState) : Nat := s.mask

/-! ## PidFD (src/pidfd.go) and MemFD (src/unnamed/part_002) -/

/-- PidFD.SendSignal: closed slot fails with ErrClosed; otherwise the
pidfd_send_signal errno is translated. -/
def pidSendSignal (fd : Int) (ke : Nat) : OpResult Unit :=
  if fd < 0 then ⟨(), some .closed, false⟩
  else if ke ≠ 0 then ⟨(), errFromErrno ke, true⟩
  else ⟨(), none, true⟩

/-- PidFD.GetFD: closed slot fails with (InvalidFD, ErrClosed); otherwise
the pidfd_getfd reply (newfd, errno) is translated. -/
def pidGetFD (fd : Int) (k : Nat × Nat) : OpResult Int :=
  if fd < 0 then ⟨-1, some .closed, false⟩
  else
    let newfd := k.1
    let errno := k.2
    if errno ≠ 0 then ⟨-1, errFromErrno errno, true⟩
    else ⟨(newfd : Int), none, true⟩

/-- MemFD.Truncate: closed slot fails with ErrClosed; otherwise the
ftruncate errno is translated. -/
def memTruncate (fd : Int) (ke : Nat) : OpResult Unit :=
  if fd < 0 then ⟨(), some .closed, false⟩
  else if ke ≠ 0 then ⟨(), errFromErrno ke, true⟩
  else ⟨(), none, true⟩

/-- MemFD.Seal: closed slot fails with ErrClosed; otherwise the fcntl
F_ADD_SEALS errno is translated. -/
def memSeal (fd : Int) (ke : Nat) : OpResult Unit :=
  if fd < 0 then ⟨(), some .closed, false⟩
  else if ke ≠ 0 then ⟨(), errFromErrno ke, true⟩
  else ⟨(), none, true⟩

/-! ## Helper lemmas -/

/-- No FD operation moves the slot away from the closed sentinel. -/
theorem fdStep_closed_slot (op : FDOp) : fdStep (-1) op = -1 := by
  cases op <;>
    simp [fdStep, fdClose, fdRead, fdWrite, fdSetNonblock, fdSetCloexec, fdDup,
      apply_ite Prod.fst]

/-- No sequence of FD operations moves the slot away from the closed
sentinel. -/
theorem fdRun_closed_slot (ops : List FDOp) : fdRun (-1) ops = -1 := by
  induction ops with
  | nil => rfl
  | cons op ops ih =>
      unfold fdRun at ih ⊢
      rw [List.foldl_cons, fdStep_closed_slot]
      exact ih

/-- Close always leaves the slot at the sentinel. -/
theorem fdClose_fst (fd : Int) (k : Int → Nat) : (fdClose fd k).1 = -1 := by
  simp [fdClose, apply_ite Prod.fst]

/-- The single-bit mask test of SigSet.Has is bit membership. -/
theorem and_shift_ne_zero (s k : Nat) :
    decide (s &&& (1 <<< k) ≠ 0) = s.testBit k := by
  rw [Nat.one_shiftLeft, Nat.and_two_pow]
  cases h : s.testBit k <;> simp [h, pow_ne_zero k (by norm_num : (2 : Nat) ≠ 0)]

/-- SigSet.Has on an in-range signal number is the bit at sig-1. -/
theorem sigsetHas_in (s : Nat) (sig : Int) (h1 : 1 ≤ sig) (h2 : sig ≤ 64) :
    sigsetHas s sig = s.testBit (sig - 1).toNat := by
  unfold sigsetHas
  rw [if_neg (by omega)]
  exact and_shift_ne_zero s _

/-- SigSet.Add on an in-range signal number sets the bit at sig-1. -/
theorem sigsetAdd_in (s : Nat) (sig : Int) (h1 : 1 ≤ sig) (h2 : sig ≤ 64) :
    sigsetAdd s sig = s ||| 2 ^ (sig - 1).toNat := by
  unfold sigsetAdd
  rw [if_neg (by omega), Nat.one_shiftLeft]

/-- Bit i of the all-ones 64-bit word is set exactly for i below 64. -/
theorem testBit_UINT64MAX (i : Nat) : UINT64MAX.testBit i = decide (i < 64) := by
  unfold UINT64MAX
  exact Nat.testBit_two_pow_sub_one 64 i

/-- SigSet.Del on an in-range signal number clears the bit at sig-1. -/
theorem sigsetDel_in (s : Nat) (sig : Int) (h1 : 1 ≤ sig) (h2 : sig ≤ 64) :
    sigsetDel s sig = s &&& (UINT64MAX ^^^ 2 ^ (sig - 1).toNat) := by
  unfold sigsetDel andNot
  rw [if_neg (by omega), Nat.one_shiftLeft]

/-! ## Claims -/

/-- C1: FD.Close swaps the slot to -1 and captures the prior value; a
prior value of -1 yields success with no kernel release; hence after any
Close the raw value is -1, every subsequent Close succeeds without a
release, and the sentinel is absorbing under every operation sequence. -/
theorem close_once_and_sentinel_absorbing (fd : Int) (k k2 : Int → Nat) (ops : List FDOp) :
    fdRaw (fdClose fd k).1 = -1
  ∧ (fd < 0 → (fdClose fd k).2 = ⟨(), none, false⟩)
  ∧ (fdClose (fdClose fd k).1 k2).2 = ⟨(), none, false⟩
  ∧ (fdClose (fdClose fd k).1 k2).1 = -1
  ∧ fdRun (fdClose fd k).1 ops = -1 := by
  have h1 : (fdClose fd k).1 = -1 := fdClose_fst fd k
  refine ⟨h1, ?_, ?_, ?_, ?_⟩
  · intro h
    unfold fdClose
    rw [if_pos h]
  · rw [h1]
    unfold fdClose
    norm_num
  · rw [h1]
    exact fdClose_fst _ k2
  · rw [h1]
    exact fdRun_closed_slot ops

theorem close_once_witness :
    (fdClose (-1) (fun _ => 7)).2 = ⟨(), none, false⟩ :=
  (close_once_and_sentinel_absorbing (-1) (fun _ => 7) (fun _ => 7) []).2.1 (by norm_num)

/-- C3: errFromErrno maps 0 to success, EAGAIN to WouldBlock, EBADF to
Closed, EINVAL to InvalidParameter, EINTR to Interrupted, ENOMEM to
OutOfMemory, EACCES and EPERM to PermissionDenied, and every other code
verbatim to Unmapped. -/
theorem errFromErrno_mapping :
    errFromErrno 0 = none
  ∧ errFromErrno EAGAIN = some .wouldBlock
  ∧ errFromErrno EBADF = some .closed
  ∧ errFromErrno EINVAL = some .invalidParam
  ∧ errFromErrno EINTR = some .interrupted
  ∧ errFromErrno ENOMEM = some .noMemory
  ∧ errFromErrno EACCES = some .permission
  ∧ errFromErrno EPERM = some .permission
  ∧ (∀ e, e ≠ 0 → e ≠ EAGAIN → e ≠ EBADF → e ≠ EINVAL → e ≠ EINTR →
       e ≠ ENOMEM → e ≠ EACCES → e ≠ EPERM →
       errFromErrno e = some (.unmapped e)) := by
  refine ⟨rfl, rfl, rfl, rfl, rfl, rfl, rfl, rfl, ?_⟩
  intro e h0 h11 h9 h22 h4 h12 h13 h1
  simp [errFromErrno, h0, h11, h9, h22, h4, h12, h13, h1]

theorem errFromErrno_mapping_witness :
    errFromErrno 2 = some (.unmapped 2) :=
  errFromErrno_mapping.2.2.2.2.2.2.2.2 2 (by decide) (by decide) (by decide)
    (by decide) (by decide) (by decide) (by decide) (by decide)

/-- C6: EventFD.Signal with a zero delta is a no-op success in every
state: no kernel call is made and the kernel counter is unchanged. -/
theorem signal_zero_noop (fd : Int) (ctr : Nat)
    (kwrite : Nat → List Nat → Nat × Nat × Nat) :
    evSignal fd ctr 0 kwrite = ((fd, ctr), ⟨(), none, false⟩) := rfl

/-- C7: FD.Read and FD.Write on a zero-length buffer return (0, nil)
without a kernel call, in every state. -/
theorem zero_length_rw_noop (fd : Int) (kread kwrite : Nat × Nat) :
    fdRead fd 0 kread = (fd, ⟨0, none, false⟩)
  ∧ fdWrite fd 0 kwrite = (fd, ⟨0, none, false⟩) := ⟨rfl, rfl⟩

/-- C4: on an open handle, a kernel read or write that reports no error
but transfers fewer bytes than the fixed record size (8 for the eventfd
counter record in Signal and Wait, 128 for the signalfd record in Read)
yields InvalidParameter, not a partial result. -/
theorem short_transfer_invalidparam (fd : Int) (hfd : 0 ≤ fd)
    (ctr ctr2 val : Nat) (hval : val ≠ 0) (n : Nat) (hn : n < 8)
    (m : Nat) (hm : m < 128) (bs bs2 : List Nat) :
    (evSignal fd ctr val (fun _ _ => (n, 0, ctr2))).2 = ⟨(), some .invalidParam, true⟩
  ∧ evWait fd (n, 0, bs) = ⟨0, some .invalidParam, true⟩
  ∧ sfdRead fd (m, 0, bs2) = ⟨none, some .invalidParam, true⟩ := by
  have hnotlt : ¬ fd < 0 := not_lt.mpr hfd
  refine ⟨?_, ?_, ?_⟩
  · simp [evSignal, hval, hnotlt, show n ≠ 8 by omega]
  · simp [evWait, hnotlt, show n ≠ 8 by omega]
  · simp [sfdRead, hnotlt, signalInfoSize, show m ≠ 128 by omega]

theorem short_transfer_witness :
    (evSignal 3 0 1 (fun _ _ => (4, 0, 0))).2 = ⟨(), some .invalidParam, true⟩ :=
  (short_transfer_invalidparam 3 (by norm_num) 0 0 1 (by decide) 4 (by decide)
    0 (by decide) [] []).1

/-- C5: the buffer-sized variants reject an undersized target buffer with
InvalidParameter before any kernel call, in every descriptor state:
SignalFD.ReadInto below 128 bytes, TimerFD.ReadInto and EventFD.Read
below 8 bytes. -/
theorem undersized_buffer_invalidparam (fd : Int) (q8 : Nat) (h8 : q8 < 8)
    (q128 : Nat) (h128 : q128 < 128) (kread : Nat × Nat) :
    sfdReadInto fd q128 kread = ⟨0, some .invalidParam, false⟩
  ∧ timerReadInto fd q8 kread = ⟨0, some .invalidParam, false⟩
  ∧ evRead fd q8 kread = ⟨0, some .invalidParam, false⟩ := by
  refine ⟨?_, ?_, ?_⟩
  · simp [sfdReadInto, signalInfoSize, h128]
  · simp [timerReadInto, h8]
  · simp [evRead, h8]

theorem undersized_buffer_witness :
    sfdReadInto (-1) 127 (0, 0) = ⟨0, some .invalidParam, false⟩ :=
  (undersized_buffer_invalidparam (-1) 7 (by decide) 127 (by decide) (0, 0)).1

/-- C8: TimerFD.Disarm is extensionally equal to TimerFD.Arm(0,0) in
return value and in the kernel interaction performed; on an open handle
that interaction is a relative timerfd_settime with the all-zero
itimerspec. -/
theorem disarm_eq_arm_zero (fd : Int) (kset : Itimerspec → Nat) :
    timerDisarm fd kset = timerArm fd 0 0 kset
  ∧ (timerDisarm fd kset).2 =
      (if fd < 0 then none else some ⟨0, ⟨⟨0, 0⟩, ⟨0, 0⟩⟩⟩) := by
  refine ⟨rfl, ?_⟩
  unfold timerDisarm timerArm
  split_ifs <;> simp_all [Int.zero_tdiv, Int.zero_tmod, apply_ite Prod.snd]

/-- C10: SignalFD.SetMask is atomic with respect to the cached mask: on
kernel failure the cache (as read by Mask) is unchanged, on success it is
exactly the new mask, and it is never anything but the one or the other. -/
theorem setmask_atomic (s : SignalFDState) (m ke : Nat) :
    (ke ≠ 0 → sfdMask (sfdSetMask s m ke).1 = sfdMask s)
  ∧ (0 ≤ s.fd → ke = 0 → sfdMask (sfdSetMask s m ke).1 = m)
  ∧ (sfdMask (sfdSetMask s m ke).1 = sfdMask s ∨ sfdMask (sfdSetMask s m ke).1 = m) := by
  refine ⟨?_, ?_, ?_⟩
  · intro hke
    simp [sfdSetMask, sfdMask, hke, apply_ite SignalFDState.mask, apply_ite Prod.fst]
  · intro hfd hke
    simp [sfdSetMask, sfdMask, hke, not_lt.mpr hfd]
  · unfold sfdSetMask sfdMask
    split_ifs <;> simp

theorem setmask_atomic_witness :
    sfdMask (sfdSetMask ⟨4, 10⟩ 33 22).1 = sfdMask ⟨4, 10⟩
  ∧ sfdMask (sfdSetMask ⟨4, 10⟩ 33 0).1 = 33 :=
  ⟨(setmask_atomic ⟨4, 10⟩ 33 22).1 (by decide),
   (setmask_atomic ⟨4, 10⟩ 33 0).2.1 (by norm_num) rfl⟩

/-- C9: SigSet.Add and SigSet.Del ignore signal numbers outside [1,64]
and SigSet.Has returns false there, never an error; inside [1,64], Add
makes Has true, Del makes Has false, and neither touches any other
member. -/
theorem sigset_membership (s : Nat) (sig j : Int) :
    (¬(1 ≤ sig ∧ sig ≤ 64) →
        sigsetAdd s sig = s ∧ sigsetDel s sig = s ∧ sigsetHas s sig = false)
  ∧ (1 ≤ sig → sig ≤ 64 →
        sigsetHas (sigsetAdd s sig) sig = true
      ∧ sigsetHas (sigsetDel s sig) sig = false
      ∧ (j ≠ sig → sigsetHas (sigsetAdd s sig) j = sigsetHas s j
                 ∧ sigsetHas (sigsetDel s sig) j = sigsetHas s j)) := by
  constructor
  · intro h
    have hc : sig < 1 ∨ sig > 64 := by omega
    exact ⟨by unfold sigsetAdd; rw [if_pos hc],
           by unfold sigsetDel; rw [if_pos hc],
           by unfold sigsetHas; rw [if_pos hc]⟩
  · intro h1 h2
    refine ⟨?_, ?_, ?_⟩
    · rw [sigsetAdd_in s sig h1 h2, sigsetHas_in _ sig h1 h2]
      simp [Nat.testBit_lor, Nat.testBit_two_pow_self]
    · rw [sigsetDel_in s sig h1 h2, sigsetHas_in _ sig h1 h2]
      simp [Nat.testBit_land, Nat.testBit_xor, testBit_UINT64MAX,
        Nat.testBit_two_pow_self, show sig.toNat - 1 < 64 by omega]
    · intro hj
      by_cases hjr : 1 ≤ j ∧ j ≤ 64
      · constructor
        · rw [sigsetAdd_in s sig h1 h2, sigsetHas_in _ j hjr.1 hjr.2,
            sigsetHas_in s j hjr.1 hjr.2]
          simp [Nat.testBit_lor,
            Nat.testBit_two_pow_of_ne (show sig.toNat - 1 ≠ j.toNat - 1 by omega)]
        · rw [sigsetDel_in s sig h1 h2, sigsetHas_in _ j hjr.1 hjr.2,
            sigsetHas_in s j hjr.1 hjr.2]
          simp [Nat.testBit_land, Nat.testBit_xor, testBit_UINT64MAX,
            Nat.testBit_two_pow_of_ne (show sig.toNat - 1 ≠ j.toNat - 1 by omega),
            show j.toNat - 1 < 64 by omega]
      · have hcj : j < 1 ∨ j > 64 := by omega
        refine ⟨?_, ?_⟩ <;> (unfold sigsetHas; rw [if_pos hcj, if_pos hcj])

theorem sigset_membership_witness :
    sigsetHas (sigsetAdd 0 9) 9 = true
  ∧ sigsetAdd 5 0 = 5
  ∧ sigsetHas (sigsetAdd 0 9) 10 = sigsetHas 0 10 :=
  ⟨((sigset_membership 0 9 1).2 (by norm_num) (by norm_num)).1,
   ((sigset_membership 5 0 1).1 (by norm_num)).1,
   (((sigset_membership 0 9 10).2 (by norm_num) (by norm_num)).2.2 (by norm_num)).1⟩

/-- C2 counterexample: after Close, EventFD.Signal(0) hits its zero-delta
short-circuit before the closed check and returns success, not the Closed
error the claim requires. -/
theorem closed_signal_zero_counterexample :
    (evSignal (fdClose 5 (fun _ => 0)).1 0 0 (fun c _ => (8, 0, c))).2.err = none
  ∧ (evSignal (fdClose 5 (fun _ => 0)).1 0 0 (fun c _ => (8, 0, c))).2.err
      ≠ some Err.closed := by
  constructor <;> decide

/-- C2 (amended): after the first Close, every I/O or control operation
whose argument short-circuit does not fire fails with Closed; the
short-circuits that precede the closed check keep their usual result
(Signal(0) success, undersized buffers InvalidParameter, zero-length
FD.Read and FD.Write success), all without a kernel call. -/
theorem closed_handle_ops (fd0 : Int) (k : Int → Nat)
    (plen : Nat) (hp : plen ≠ 0) (kr kw : Nat × Nat)
    (ctr val : Nat) (hv : val ≠ 0) (kev : Nat → List Nat → Nat × Nat × Nat)
    (kread3 : Nat × Nat × List Nat)
    (p8 : Nat) (h8 : 8 ≤ p8)
    (ini itv : Int) (kset : Itimerspec → Nat)
    (p128 : Nat) (h128 : 128 ≤ p128)
    (m msk ke : Nat) (kfl : Nat → Nat × Nat)
    (q8 : Nat) (hq8 : q8 < 8) (q128 : Nat) (hq128 : q128 < 128) :
    (fdRead (fdClose fd0 k).1 plen kr).2.err = some .closed
  ∧ (fdWrite (fdClose fd0 k).1 plen kw).2.err = some .closed
  ∧ (evSignal (fdClose fd0 k).1 ctr val kev).2.err = some .closed
  ∧ (evWait (fdClose fd0 k).1 kread3).err = some .closed
  ∧ (evRead (fdClose fd0 k).1 p8 kr).err = some .closed
  ∧ (evWrite (fdClose fd0 k).1 p8 kw).err = some .closed
  ∧ (timerArm (fdClose fd0 k).1 ini itv kset).1.err = some .closed
  ∧ (timerArmAt (fdClose fd0 k).1 ini itv kset).1.err = some .closed
  ∧ (timerDisarm (fdClose fd0 k).1 kset).1.err = some .closed
  ∧ (timerRead (fdClose fd0 k).1 kread3).err = some .closed
  ∧ (timerReadInto (fdClose fd0 k).1 p8 kr).err = some .closed
  ∧ (sfdRead (fdClose fd0 k).1 kread3).err = some .closed
  ∧ (sfdReadInto (fdClose fd0 k).1 p128 kr).err = some .closed
  ∧ (sfdSetMask ⟨(fdClose fd0 k).1, m⟩ msk ke).2.err = some .closed
  ∧ (pidSendSignal (fdClose fd0 k).1 ke).err = some .closed
  ∧ (pidGetFD (fdClose fd0 k).1 kr).err = some .closed
  ∧ (memTruncate (fdClose fd0 k).1 ke).err = some .closed
  ∧ (memSeal (fdClose fd0 k).1 ke).err = some .closed
  ∧ (fdSetNonblock (fdClose fd0 k).1 true kr kfl).2.err = some .closed
  ∧ (fdSetCloexec (fdClose fd0 k).1 true kr kfl).2.err = some .closed
  ∧ (fdDup (fdClose fd0 k).1 kr).2.err = some .closed
  ∧ (evSignal (fdClose fd0 k).1 ctr 0 kev).2 = ⟨(), none, false⟩
  ∧ (evRead (fdClose fd0 k).1 q8 kr).err = some .invalidParam
  ∧ (timerReadInto (fdClose fd0 k).1 q8 kr).err = some .invalidParam
  ∧ (sfdReadInto (fdClose fd0 k).1 q128 kr).err = some .invalidParam
  ∧ (fdRead (fdClose fd0 k).1 0 kr).2.err = none
  ∧ (fdWrite (fdClose fd0 k).1 0 kw).2.err = none := by
  rw [fdClose_fst fd0 k]
  have hneg : (-1 : Int) < 0 := by norm_num
  have hn8 : ¬ p8 < 8 := by omega
  have hn128 : ¬ p128 < 128 := by omega
  refine ⟨?_, ?_, ?_, ?_, ?_, ?_, ?_, ?_, ?_, ?_, ?_, ?_, ?_, ?_, ?_, ?_, ?_,
    ?_, ?_, ?_, ?_, ?_, ?_, ?_, ?_, ?_, ?_⟩
  · simp [fdRead, hp, hneg]
  · simp [fdWrite, hp, hneg]
  · simp [evSignal, hv, hneg]
  · simp [evWait, hneg]
  · simp [evRead, hn8, hneg]
  · simp [evWrite, hn8, hneg]
  · simp [timerArm, hneg]
  · simp [timerArmAt, hneg]
  · simp [timerDisarm, timerArm, hneg]
  · simp [timerRead, hneg]
  · simp [timerReadInto, hn8, hneg]
  · simp [sfdRead, hneg]
  · simp [sfdReadInto, signalInfoSize, hn128, hneg]
  · simp [sfdSetMask, hneg]
  · simp [pidSendSignal, hneg]
  · simp [pidGetFD, hneg]
  · simp [memTruncate, hneg]
  · simp [memSeal, hneg]
  · simp [fdSetNonblock, hneg]
  · simp [fdSetCloexec, hneg]
  · simp [fdDup, hneg]
  · simp [evSignal]
  · simp [evRead, hq8]
  · simp [timerReadInto, hq8]
  · simp [sfdReadInto, signalInfoSize, hq128]
  · simp [fdRead]
  · simp [fdWrite]

theorem closed_handle_ops_witness :
    (fdRead (fdClose 5 (fun _ => 0)).1 1 (0, 0)).2.err = some .closed :=
  (closed_handle_ops 5 (fun _ => 0) 1 (by decide) (0, 0) (0, 0) 0 1 (by decide)
    (fun c _ => (8, 0, c)) (0, 0, []) 8 (by decide) 0 0 (fun _ => 0)
    128 (by decide) 0 0 0 (fun _ => (0, 0)) 0 (by decide) 0 (by decide)).1

end Iofd
